import Mathlib

/-!
Verification of the GLB character/weapon preview pipeline
(src/src/components/models/CharacterModel3D.tsx and the weapon model file).

The repository contains two "strategies" per asset class:
* the safe-material-replacement variants, whose material pass is the function
  `sanitizeMaterials` with inner `replaceMat` (character file lines 30-75,
  weapon file lines 142-187) — the two copies are textually identical and are
  modelled once below;
* the auto-centering variants, whose material pass is the inline `traverse`
  inside `GLBCharacter` / `GLBWeapon` (character file lines 200-216, weapon
  file lines 38-54) — also textually identical across the two files and
  modelled once below as `inlineRewrite`.

Scalar material fields are modelled as rationals; JavaScript null/undefined
as `Option`; textures as opaque object references (`Nat` ids).
-/

/-- An RGB colour value (a THREE.Color), channels as rationals. -/
structure Color where
  r : ℚ
  g : ℚ
  b : ℚ
deriving DecidableEq, Repr

/-- 0x888888: the neutral gray used by every default branch of the source. -/
def gray : Color := ⟨136/255, 136/255, 136/255⟩

/-- 0xffffff: the THREE.Color constructor default. -/
def white : Color := ⟨1, 1, 1⟩

/-- The `color` field of an untyped source material, as the code probes it:
`absent` = falsy (`null`/`undefined`, the `(mat && mat.color)` guard fails);
`broken` = truthy but not a proper colour object, so `mat.color.clone()`
throws (and THREE.Color.set does not recognise the value either);
`proper c` = a well-formed colour. -/
inductive SrcColor where
  | absent
  | broken
  | proper (c : Color)
deriving DecidableEq, Repr

/-- A source material descriptor as found on a loaded asset's mesh: an
untyped object whose fields may be missing (`none` = null/undefined). -/
structure SrcMaterial where
  color : SrcColor
  map : Option Nat
  normalMap : Option Nat
  roughness : Option ℚ
  metalness : Option ℚ
  transparent : Bool
  opacity : Option ℚ
deriving DecidableEq, Repr

/-- A constructed THREE.MeshStandardMaterial, restricted to the whitelisted
fields the source ever sets (the spec's MaterialDescriptor). -/
structure StdMaterial where
  color : Color
  map : Option Nat
  normalMap : Option Nat
  roughness : ℚ
  metalness : ℚ
  doubleSided : Bool
  transparent : Bool
  opacity : ℚ
deriving DecidableEq, Repr

/-- The material slot of a mesh (`child.material` in JavaScript): falsy,
a single material, or an array whose elements may themselves be
null/undefined. -/
inductive Slot (μ : Type) where
  | noMat : Slot μ
  | single (m : μ) : Slot μ
  | arr (ms : List (Option μ)) : Slot μ
deriving DecidableEq, Repr

/-- The material returned by `replaceMat`'s catch branch
(`color: 0x888888, roughness: 0.5, metalness: 0.3, side: DoubleSide`;
the remaining fields are the MeshStandardMaterial constructor defaults). -/
def replaceCatchDefault : StdMaterial :=
  { color := gray, map := none, normalMap := none, roughness := 1/2,
    metalness := 3/10, doubleSided := true, transparent := false, opacity := 1 }

/-- The material `sanitizeMaterials` assigns to a mesh with a falsy material
slot (`color: 0x888888, side: DoubleSide`; roughness 1, metalness 0,
transparent false and opacity 1 are the constructor defaults). -/
def noMaterialDefault : StdMaterial :=
  { color := gray, map := none, normalMap := none, roughness := 1,
    metalness := 0, doubleSided := true, transparent := false, opacity := 1 }

/-- `replaceMat` from the safe-replacement variants (character file lines
34-55, weapon file lines 146-167). The argument is the possibly-falsy
material handed to it (`none` models a falsy value, e.g. a null array
element). Field by field:
`color`: `(mat && mat.color) ? mat.color.clone() : new THREE.Color(0x888888)`
— a `broken` colour makes `clone()` throw, so the whole try-block throws
before any other field is read and the catch branch returns
`replaceCatchDefault`;
`map`/`normalMap`: `(mat && mat.map) || null`;
`roughness`/`metalness`/`opacity`: `(mat && f != null) ? f : default`;
`transparent`: `(mat && mat.transparent) || false`;
`side: THREE.DoubleSide` always. -/
def replaceMat : Option SrcMaterial → StdMaterial
  | none =>
    { color := gray, map := none, normalMap := none, roughness := 1/2,
      metalness := 3/10, doubleSided := true, transparent := false, opacity := 1 }
  | some m =>
    match m.color with
    | .broken => replaceCatchDefault
    | .absent =>
      { color := gray, map := m.map, normalMap := m.normalMap,
        roughness := m.roughness.getD (1/2), metalness := m.metalness.getD (3/10),
        doubleSided := true, transparent := m.transparent, opacity := m.opacity.getD 1 }
    | .proper c =>
      { color := c, map := m.map, normalMap := m.normalMap,
        roughness := m.roughness.getD (1/2), metalness := m.metalness.getD (3/10),
        doubleSided := true, transparent := m.transparent, opacity := m.opacity.getD 1 }

/-- The per-mesh slot handling of `sanitizeMaterials` (character file lines
57-73): `Array.isArray(child.material)` → map `replaceMat` over the array;
truthy single material → `replaceMat` on it; falsy → assign the
no-material default. -/
def sanitizeSlot : Slot SrcMaterial → Slot StdMaterial
  | .arr ms => .arr (ms.map (fun m => some (replaceMat m)))
  | .single m => .single (replaceMat (some m))
  | .noMat => .single noMaterialDefault

/-- The material built by the auto-centering variants' inline rewrite for a
truthy single material (character file lines 205-212, weapon file lines
43-50): `color: oldMat.color || new THREE.Color(0x888888)` (a `broken`
colour value is passed to the constructor, whose `set` ignores values it
does not recognise, leaving the default white), `map`/`normalMap` with
`|| null`, `roughness`/`metalness` with `?? 0.5` / `?? 0.3`,
`side: DoubleSide`; `transparent`/`opacity` are not supplied, so they keep
the constructor defaults false / 1. -/
def inlineReplace (m : SrcMaterial) : StdMaterial :=
  { color := match m.color with
      | .proper c => c
      | .absent => gray
      | .broken => white,
    map := m.map, normalMap := m.normalMap,
    roughness := m.roughness.getD (1/2), metalness := m.metalness.getD (3/10),
    doubleSided := true, transparent := false, opacity := 1 }

/-- What the inline rewrite builds when `child.material` is an array: the
array is truthy, so it is treated as a single material; `oldMat.color`,
`oldMat.roughness` and `oldMat.metalness` read `undefined`, so those
defaults fire. (On a real array `oldMat.map` is the inherited
`Array.prototype.map` function and `normalMap` is `undefined`; the map
field is modelled as none — no claim reads it.) -/
def inlineArrayDefault : StdMaterial :=
  { color := gray, map := none, normalMap := none, roughness := 1/2,
    metalness := 3/10, doubleSided := true, transparent := false, opacity := 1 }

/-- The per-mesh slot handling of the auto-centering variants' inline pass
(`if (child.isMesh && child.material)`): a falsy slot is skipped entirely,
a truthy slot — single material or array alike — is replaced by one
freshly constructed material. -/
def inlineRewriteSlot : Slot SrcMaterial → Slot StdMaterial
  | .noMat => .noMat
  | .single m => .single (inlineReplace m)
  | .arr _ => .single inlineArrayDefault

/-- A position vector (Object3D transform data relevant to the claims). -/
abbrev Vec3 := ℚ × ℚ × ℚ

/-- A THREE scene graph: group nodes (Group/Bone/Scene — no material) and
mesh nodes (`child.isMesh`, carrying a geometry reference and a material
slot), each with a name, a transform and children. The slot content is a
type parameter so the same tree shape describes the graph before and after
a material pass. -/
inductive SceneTree (σ : Type) where
  | group (name : String) (position : Vec3) (children : List (SceneTree σ)) : SceneTree σ
  | mesh (name : String) (position : Vec3) (geometry : Nat) (material : σ)
      (children : List (SceneTree σ)) : SceneTree σ
deriving Repr

/-- `obj.traverse` applying a rewrite to every mesh's material slot and
touching nothing else — the shape shared by both material passes. -/
def mapMats (f : σ → τ) : SceneTree σ → SceneTree τ
  | .group nm p cs => .group nm p (cs.attach.map (fun c => mapMats f c.1))
  | .mesh nm p g m cs => .mesh nm p g (f m) (cs.attach.map (fun c => mapMats f c.1))
termination_by t => sizeOf t
decreasing_by
  all_goals simp_wf
  all_goals have := List.sizeOf_lt_of_mem c.2
  all_goals omega

/-- `sanitizeMaterials` (safe-replacement variants): traverse the graph and
rewrite every mesh's material slot with `sanitizeSlot`. -/
def sanitizeMaterials : SceneTree (Slot SrcMaterial) → SceneTree (Slot StdMaterial) :=
  mapMats sanitizeSlot

/-- The auto-centering variants' inline material pass: traverse the graph
and rewrite every mesh's truthy material slot with `inlineRewriteSlot`. -/
def inlineRewrite : SceneTree (Slot SrcMaterial) → SceneTree (Slot StdMaterial) :=
  mapMats inlineRewriteSlot

/-- Per-instance clone (`SkeletonUtils.clone(gltf.scene)` in the
safe-replacement character variant, `scene.clone(true)` elsewhere): copies
the node hierarchy; every observable node datum, including the material
references held in the slots, is carried over unchanged. Modelled as the
identity on the observable tree. -/
def cloneScene (t : SceneTree σ) : SceneTree σ := t

/-- The material values held in a slot (array elements that are
null/undefined hold no material). -/
def Slot.mats : Slot μ → List μ
  | .noMat => []
  | .single m => [m]
  | .arr ms => ms.filterMap id

/-- The material slots of all mesh nodes of a tree, in traversal order. -/
def meshMats : SceneTree σ → List σ
  | .group _ _ cs => (cs.attach.map (fun c => meshMats c.1)).flatten
  | .mesh _ _ _ m cs => m :: (cs.attach.map (fun c => meshMats c.1)).flatten
termination_by t => sizeOf t
decreasing_by
  all_goals simp_wf
  all_goals have := List.sizeOf_lt_of_mem c.2
  all_goals omega

/-- All material values reachable from mesh slots of a tree. -/
def allMats (t : SceneTree (Slot μ)) : List μ :=
  ((meshMats t).map Slot.mats).flatten

/-- The tree with every mesh material slot erased: node kinds, names,
transforms, geometry references and the hierarchy remain. -/
def shape : SceneTree σ → SceneTree Unit :=
  mapMats (fun _ => ())

theorem mapMats_group (f : σ → τ) (nm : String) (p : Vec3) (cs : List (SceneTree σ)) :
    mapMats f (.group nm p cs) = .group nm p (cs.map (mapMats f)) := by
  rw [mapMats]
  simp

theorem mapMats_mesh (f : σ → τ) (nm : String) (p : Vec3) (g : Nat) (m : σ)
    (cs : List (SceneTree σ)) :
    mapMats f (.mesh nm p g m cs) = .mesh nm p g (f m) (cs.map (mapMats f)) := by
  rw [mapMats]
  simp

theorem meshMats_group (nm : String) (p : Vec3) (cs : List (SceneTree σ)) :
    meshMats (.group nm p cs) = (cs.map meshMats).flatten := by
  rw [meshMats]
  simp

theorem meshMats_mesh (nm : String) (p : Vec3) (g : Nat) (m : σ) (cs : List (SceneTree σ)) :
    meshMats (.mesh nm p g m cs) = m :: (cs.map meshMats).flatten := by
  rw [meshMats]
  simp

/-- Induction on a scene tree with the inductive hypothesis available for
every child. -/
theorem SceneTree.inductionOn {σ : Type} {P : SceneTree σ → Prop}
    (hg : ∀ nm p cs, (∀ c ∈ cs, P c) → P (SceneTree.group nm p cs))
    (hm : ∀ nm p g m cs, (∀ c ∈ cs, P c) → P (SceneTree.mesh nm p g m cs)) :
    ∀ t, P t := by
  have key : ∀ (n : Nat) (t : SceneTree σ), sizeOf t ≤ n → P t := by
    intro n
    induction n with
    | zero =>
      intro t ht
      cases t <;> simp at ht
    | succ n ih =>
      intro t ht
      cases t with
      | group nm p cs =>
        apply hg
        intro c hc
        apply ih
        have h1 := List.sizeOf_lt_of_mem hc
        simp at ht
        omega
      | mesh nm p g m cs =>
        apply hm
        intro c hc
        apply ih
        have h1 := List.sizeOf_lt_of_mem hc
        simp at ht
        omega
  intro t
  exact key (sizeOf t) t le_rfl

theorem meshMats_mapMats (f : σ → τ) :
    ∀ t, meshMats (mapMats f t) = (meshMats t).map f := by
  apply SceneTree.inductionOn
  case hg =>
    intro nm p cs ih
    rw [mapMats_group, meshMats_group, meshMats_group]
    simp only [List.map_map, List.map_flatten]
    congr 1
    apply List.map_congr_left
    intro c hc
    exact ih c hc
  case hm =>
    intro nm p g m cs ih
    rw [mapMats_mesh, meshMats_mesh, meshMats_mesh]
    simp only [List.map_map, List.map_flatten, List.map_cons]
    congr 2
    apply List.map_congr_left
    intro c hc
    exact ih c hc

theorem mapMats_mapMats (f : τ → υ) (g : σ → τ) :
    ∀ t, mapMats f (mapMats g t) = mapMats (f ∘ g) t := by
  apply SceneTree.inductionOn
  case hg =>
    intro nm p cs ih
    rw [mapMats_group, mapMats_group, mapMats_group]
    simp only [List.map_map]
    congr 1
    apply List.map_congr_left
    intro c hc
    exact ih c hc
  case hm =>
    intro nm p g m cs ih
    rw [mapMats_mesh, mapMats_mesh, mapMats_mesh]
    simp only [List.map_map, Function.comp_apply]
    congr 1
    apply List.map_congr_left
    intro c hc
    exact ih c hc

theorem mapMats_eq_self (f : σ → σ) :
    ∀ t, (∀ s ∈ meshMats t, f s = s) → mapMats f t = t := by
  apply SceneTree.inductionOn
  case hg =>
    intro nm p cs ih hf
    rw [mapMats_group]
    rw [meshMats_group] at hf
    have : cs.map (mapMats f) = cs.map id := by
      apply List.map_congr_left
      intro c hc
      refine (ih c hc ?_).trans rfl
      intro s hs
      apply hf
      simp only [List.mem_flatten]
      exact ⟨meshMats c, List.mem_map_of_mem meshMats hc, hs⟩
    simp [this]
  case hm =>
    intro nm p g m cs ih hf
    rw [mapMats_mesh]
    rw [meshMats_mesh] at hf
    have h1 : f m = m := hf m (List.mem_cons_self m _)
    have h2 : cs.map (mapMats f) = cs.map id := by
      apply List.map_congr_left
      intro c hc
      refine (ih c hc ?_).trans rfl
      intro s hs
      apply hf
      apply List.mem_cons_of_mem
      simp only [List.mem_flatten]
      exact ⟨meshMats c, List.mem_map_of_mem meshMats hc, hs⟩
    simp [h1, h2]

/-!
Object identity. For the aliasing claims the material passes are
instrumented with allocation: JavaScript materials are heap objects, so a
material is modelled as a pair of an object id and its value, and every
`new THREE.MeshStandardMaterial(...)` the pass executes draws a fresh id
from a counter. The values allocated are exactly those computed by
`replaceMat` / `inlineReplace` above.
-/

-- `mapMatsSt` traverses the graph rewriting every mesh slot with a
-- state-threaded rewrite (the state is the allocation counter), in
-- traversal order.
mutual
def mapMatsSt (f : σ → Nat → τ × Nat) : SceneTree σ → Nat → SceneTree τ × Nat
  | .group nm p cs, n =>
    let r := mapListSt f cs n
    (.group nm p r.1, r.2)
  | .mesh nm p g m cs, n =>
    let rm := f m n
    let r := mapListSt f cs rm.2
    (.mesh nm p g rm.1 r.1, r.2)

def mapListSt (f : σ → Nat → τ × Nat) :
    List (SceneTree σ) → Nat → List (SceneTree τ) × Nat
  | [], n => ([], n)
  | c :: cs, n =>
    let rc := mapMatsSt f c n
    let r := mapListSt f cs rc.2
    (rc.1 :: r.1, r.2)
end

/-- The object ids held in one material slot. -/
def slotIds (s : Slot (Nat × μ)) : List Nat := (Slot.mats s).map Prod.fst

/-- The object ids of all materials held in mesh slots of a tree. -/
def matIds (t : SceneTree (Slot (Nat × μ))) : List Nat :=
  ((meshMats t).map slotIds).flatten

theorem mem_matIds {t : SceneTree (Slot (Nat × μ))} {i : Nat} :
    i ∈ matIds t ↔ ∃ s ∈ meshMats t, i ∈ slotIds s := by
  simp [matIds, List.mem_flatten]

/-- Apply a function to every material value held in a slot. -/
def Slot.mapVals (g : μ → τ) : Slot μ → Slot τ
  | .noMat => .noMat
  | .single m => .single (g m)
  | .arr ms => .arr (ms.map (Option.map g))

/-- In-place mutation of the material object with id `oid`, wherever it is
referenced in a slot: aliasing means every reference to that id sees the
update. -/
def mutateSlot (oid : Nat) (f : μ → μ) : Slot (Nat × μ) → Slot (Nat × μ) :=
  Slot.mapVals (fun im => if im.1 = oid then (im.1, f im.2) else im)

/-- In-place mutation of the material object with id `oid` as observed
through a scene graph: every slot referencing the id sees the update. -/
def mutateById (oid : Nat) (f : μ → μ) :
    SceneTree (Slot (Nat × μ)) → SceneTree (Slot (Nat × μ)) :=
  mapMats (mutateSlot oid f)

theorem Slot.mapVals_eq_self (g : μ → μ) (s : Slot μ)
    (h : ∀ m ∈ Slot.mats s, g m = m) : Slot.mapVals g s = s := by
  cases s with
  | noMat => rfl
  | single m =>
    simp only [Slot.mapVals, Slot.single.injEq]
    exact h m (by simp [Slot.mats])
  | arr ms =>
    simp only [Slot.mapVals, Slot.arr.injEq]
    have : ms.map (Option.map g) = ms.map id := by
      apply List.map_congr_left
      intro o ho
      cases o with
      | none => rfl
      | some m =>
        have hm : g m = m := by
          apply h
          simp only [Slot.mats, List.mem_filterMap, id_eq]
          exact ⟨some m, ho, rfl⟩
        simp [hm]
    simp [this]

theorem mutateSlot_eq_self (oid : Nat) (f : μ → μ) (s : Slot (Nat × μ))
    (h : oid ∉ slotIds s) : mutateSlot oid f s = s := by
  apply Slot.mapVals_eq_self
  intro im him
  have : im.1 ≠ oid := by
    intro he
    apply h
    simp only [slotIds, List.mem_map]
    exact ⟨im, him, he⟩
  simp [this]

theorem mutateById_eq_self (oid : Nat) (f : μ → μ) (t : SceneTree (Slot (Nat × μ)))
    (h : oid ∉ matIds t) : mutateById oid f t = t := by
  apply mapMats_eq_self
  intro s hs
  apply mutateSlot_eq_self
  intro hi
  exact h (mem_matIds.mpr ⟨s, hs, hi⟩)

/-- `child.material.map(replaceMat)` with allocation: one fresh material
object id per array element, values as computed by `replaceMat`. -/
def replaceMatsA :
    List (Option (Nat × SrcMaterial)) → Nat → List (Option (Nat × StdMaterial)) × Nat
  | [], n => ([], n)
  | m :: ms, n =>
    let rest := replaceMatsA ms (n + 1)
    (some (n, replaceMat (m.map Prod.snd)) :: rest.1, rest.2)

/-- The per-mesh slot handling of `sanitizeMaterials`, instrumented with
allocation: every branch constructs fresh material objects, so each output
material carries a fresh id; the input slot's material ids are dropped. -/
def sanitizeSlotAlloc : Slot (Nat × SrcMaterial) → Nat → Slot (Nat × StdMaterial) × Nat
  | .arr ms, n =>
    let r := replaceMatsA ms n
    (.arr r.1, r.2)
  | .single im, n => (.single (n, replaceMat (some im.2)), n + 1)
  | .noMat, n => (.single (n, noMaterialDefault), n + 1)

/-- `sanitizeMaterials` instrumented with object identity. -/
def sanitizeMaterialsAlloc :
    SceneTree (Slot (Nat × SrcMaterial)) → Nat → SceneTree (Slot (Nat × StdMaterial)) × Nat :=
  mapMatsSt sanitizeSlotAlloc

/-- The auto-centering variants' inline pass instrumented with object
identity: a falsy slot is skipped (nothing allocated, and the slot keeps no
material reference at all), a truthy slot is replaced by one freshly
constructed material. -/
def inlineRewriteSlotAlloc : Slot (Nat × SrcMaterial) → Nat → Slot (Nat × StdMaterial) × Nat
  | .noMat, n => (.noMat, n)
  | .single im, n => (.single (n, inlineReplace im.2), n + 1)
  | .arr _, n => (.single (n, inlineArrayDefault), n + 1)

/-- The auto-centering variants' inline material pass instrumented with
object identity. -/
def inlineRewriteAlloc :
    SceneTree (Slot (Nat × SrcMaterial)) → Nat → SceneTree (Slot (Nat × StdMaterial)) × Nat :=
  mapMatsSt inlineRewriteSlotAlloc

/-- A slot rewrite allocates only fresh ids: the counter never decreases
and every output id lies in the consumed interval. -/
def SlotAllocSpec (f : Slot (Nat × α) → Nat → Slot (Nat × β) × Nat) : Prop :=
  ∀ s n, n ≤ (f s n).2 ∧ ∀ i ∈ slotIds (f s n).1, n ≤ i ∧ i < (f s n).2

theorem replaceMatsA_counter (ms : List (Option (Nat × SrcMaterial))) :
    ∀ n, (replaceMatsA ms n).2 = n + ms.length := by
  induction ms with
  | nil => intro n; simp [replaceMatsA]
  | cons m ms ih =>
    intro n
    simp only [replaceMatsA, List.length_cons]
    rw [ih]
    omega

theorem replaceMatsA_ids (ms : List (Option (Nat × SrcMaterial))) :
    ∀ n, ∀ i ∈ slotIds (.arr (replaceMatsA ms n).1), n ≤ i ∧ i < n + ms.length := by
  induction ms with
  | nil => intro n i hi; simp [replaceMatsA, slotIds, Slot.mats] at hi
  | cons m ms ih =>
    intro n i hi
    simp only [replaceMatsA, slotIds, Slot.mats, List.filterMap_cons, id_eq,
      List.map_cons, List.mem_cons] at hi
    rcases hi with h | h
    · subst h
      simp only [List.length_cons]
      omega
    · have hmem : i ∈ slotIds (.arr (replaceMatsA ms (n + 1)).1) := by
        simp only [slotIds, Slot.mats]
        exact h
      have := ih (n + 1) i hmem
      simp only [List.length_cons]
      omega

theorem sanitizeSlotAlloc_spec : SlotAllocSpec sanitizeSlotAlloc := by
  intro s n
  cases s with
  | noMat =>
    constructor
    · simp [sanitizeSlotAlloc]
    · intro i hi
      simp [sanitizeSlotAlloc, slotIds, Slot.mats] at hi ⊢
      omega
  | single im =>
    constructor
    · simp [sanitizeSlotAlloc]
    · intro i hi
      simp [sanitizeSlotAlloc, slotIds, Slot.mats] at hi ⊢
      omega
  | arr ms =>
    constructor
    · simp [sanitizeSlotAlloc, replaceMatsA_counter]
    · intro i hi
      simp only [sanitizeSlotAlloc] at hi ⊢
      have := replaceMatsA_ids ms n i hi
      rw [replaceMatsA_counter]
      omega

theorem inlineRewriteSlotAlloc_spec : SlotAllocSpec inlineRewriteSlotAlloc := by
  intro s n
  cases s with
  | noMat =>
    constructor
    · simp [inlineRewriteSlotAlloc]
    · intro i hi
      simp [inlineRewriteSlotAlloc, slotIds, Slot.mats] at hi
  | single im =>
    constructor
    · simp [inlineRewriteSlotAlloc]
    · intro i hi
      simp [inlineRewriteSlotAlloc, slotIds, Slot.mats] at hi ⊢
      omega
  | arr ms =>
    constructor
    · simp [inlineRewriteSlotAlloc]
    · intro i hi
      simp [inlineRewriteSlotAlloc, slotIds, Slot.mats] at hi ⊢
      omega

theorem mem_matIds_group {i : Nat} {nm : String} {p : Vec3}
    {cs : List (SceneTree (Slot (Nat × μ)))} :
    i ∈ matIds (SceneTree.group nm p cs) ↔ ∃ c ∈ cs, i ∈ matIds c := by
  simp only [mem_matIds, meshMats_group, List.mem_flatten, List.mem_map]
  constructor
  · rintro ⟨s, ⟨l, ⟨c, hc, rfl⟩, hs⟩, hi⟩
    exact ⟨c, hc, s, hs, hi⟩
  · rintro ⟨c, hc, s, hs, hi⟩
    exact ⟨s, ⟨meshMats c, ⟨c, hc, rfl⟩, hs⟩, hi⟩

theorem mem_matIds_mesh {i : Nat} {nm : String} {p : Vec3} {g : Nat}
    {s : Slot (Nat × μ)} {cs : List (SceneTree (Slot (Nat × μ)))} :
    i ∈ matIds (SceneTree.mesh nm p g s cs) ↔
      i ∈ slotIds s ∨ ∃ c ∈ cs, i ∈ matIds c := by
  simp only [mem_matIds, meshMats_mesh, List.mem_cons, List.mem_flatten, List.mem_map]
  constructor
  · rintro ⟨s', hs' | ⟨l, ⟨c, hc, rfl⟩, hs'⟩, hi⟩
    · subst hs'
      exact Or.inl hi
    · exact Or.inr ⟨c, hc, s', hs', hi⟩
  · rintro (hi | ⟨c, hc, s', hs', hi⟩)
    · exact ⟨s, Or.inl rfl, hi⟩
    · exact ⟨s', Or.inr ⟨meshMats c, ⟨c, hc, rfl⟩, hs'⟩, hi⟩

theorem mapListSt_fresh (f : Slot (Nat × α) → Nat → Slot (Nat × β) × Nat)
    (cs : List (SceneTree (Slot (Nat × α))))
    (hcs : ∀ c ∈ cs, ∀ n, n ≤ (mapMatsSt f c n).2 ∧
      ∀ i ∈ matIds (mapMatsSt f c n).1, n ≤ i ∧ i < (mapMatsSt f c n).2) :
    ∀ n, n ≤ (mapListSt f cs n).2 ∧
      ∀ c ∈ (mapListSt f cs n).1, ∀ i ∈ matIds c, n ≤ i ∧ i < (mapListSt f cs n).2 := by
  induction cs with
  | nil =>
    intro n
    constructor
    · simp [mapListSt]
    · intro c hc
      simp [mapListSt] at hc
  | cons c cs ih =>
    intro n
    have hhead := hcs c (List.mem_cons_self c cs) n
    have htail := ih (fun c' hc' => hcs c' (List.mem_cons_of_mem c hc'))
      (mapMatsSt f c n).2
    constructor
    · simp only [mapListSt]
      omega
    · intro c' hc' i hi
      simp only [mapListSt, List.mem_cons] at hc' ⊢
      rcases hc' with rfl | hc'
      · have := hhead.2 i hi
        have := htail.1
        omega
      · have := htail.2 c' hc' i hi
        omega

theorem mapMatsSt_fresh (f : Slot (Nat × α) → Nat → Slot (Nat × β) × Nat)
    (hf : SlotAllocSpec f) :
    ∀ t n, n ≤ (mapMatsSt f t n).2 ∧
      ∀ i ∈ matIds (mapMatsSt f t n).1, n ≤ i ∧ i < (mapMatsSt f t n).2 := by
  apply SceneTree.inductionOn
  case hg =>
    intro nm p cs ih n
    have hl := mapListSt_fresh f cs ih n
    constructor
    · simp only [mapMatsSt]
      exact hl.1
    · intro i hi
      simp only [mapMatsSt] at hi ⊢
      rw [mem_matIds_group] at hi
      obtain ⟨c, hc, hin⟩ := hi
      exact hl.2 c hc i hin
  case hm =>
    intro nm p g m cs ih n
    have hs := hf m n
    have hl := mapListSt_fresh f cs ih (f m n).2
    constructor
    · simp only [mapMatsSt]
      omega
    · intro i hi
      simp only [mapMatsSt] at hi ⊢
      rw [mem_matIds_mesh] at hi
      rcases hi with hi | ⟨c, hc, hin⟩
      · have := hs.2 i hi
        have := hl.1
        omega
      · have := hl.2 c hc i hin
        omega

/-!
Component layer: identifier tables, the render model used for the
unmapped-id claim, the per-frame rotation driver, and the failure
containment lifecycle.
-/

/-- `CHARACTER_GLB_MAP` (character file lines 19-27). -/
def CHARACTER_GLB_MAP : List (String × String) :=
  [("ghost_riley", "/Models/Characters/snake_eyes__fortnite_item_shop_skin.glb"),
   ("nova_prime", "/Models/Characters/fortnite_oblivion_skin.glb"),
   ("viper_snake", "/Models/Characters/torin__fortnite_chapter_2_season_8_bp_skin.glb"),
   ("shadow_exe", "/Models/Characters/the_omega_tier_100_skin_fortnite_3d_model.glb"),
   ("midas_gold", "/Models/Characters/midas__fortnite_100_tier_s12_bp_skin.glb"),
   ("marigold", "/Models/Characters/marigold_fortnite_skin__female_midas.glb"),
   ("glow_phantom", "/Models/Characters/glow__fortnite_outfit.glb")]

/-- `WEAPON_GLB_MAP` (weapon file lines 16-32). -/
def WEAPON_GLB_MAP : List (String × String) :=
  [("k416", "/Models/weapons/rifle__m4a1-s_weapon_model_cs2.glb"),
   ("ak_death", "/Models/weapons/ak-47disassembly_of_weapons.glb"),
   ("awm_x", "/Models/weapons/rifle__awp_weapon_model_cs2.glb"),
   ("vector_neon", "/Models/weapons/animated_pp-19-01.glb"),
   ("s12_breacher", "/Models/weapons/shotgun_mr-133_animated.glb"),
   ("desert_eagle", "/Models/weapons/pistol__desert_eagle_weapon_model_cs2.glb"),
   ("glock_17", "/Models/weapons/glock_17_-_fps_weapon_animations_pack_v.1.glb"),
   ("m4a4_thunder", "/Models/weapons/rifle__m4a4_weapon_model_cs2.glb"),
   ("sniper_elite", "/Models/weapons/sniper.glb"),
   ("usp_shadow", "/Models/weapons/pistol__usp-s_weapon_model_cs2.glb"),
   ("awp_black", "/Models/weapons/rifle__awp_black_version_weapon_model_cs2.glb"),
   ("cz100", "/Models/weapons/cz100__realtime_weapon.glb"),
   ("cheytac", "/Models/weapons/cheytac_m300_mcmillan_stock.glb"),
   ("t77", "/Models/weapons/t77_handgun.glb"),
   ("colt_m1911", "/Models/weapons/colt_pistol_m1911a1_game_asset.glb")]

/-- The table's own entry for an id: the configured path, or none. -/
def resolve (table : List (String × String)) (id : String) : Option String :=
  table.lookup id

/-- The property keys every plain JavaScript object literal inherits from
Object.prototype. The `in` operator reports these as present on the
identifier tables even though they are not entries, and reading
`table[key]` for such a key yields the inherited member (a function, or
the prototype object for `__proto__`), not a path. -/
def OBJECT_PROTOTYPE_KEYS : List String :=
  ["constructor", "hasOwnProperty", "isPrototypeOf", "propertyIsEnumerable",
   "toLocaleString", "toString", "valueOf", "__proto__", "__defineGetter__",
   "__defineSetter__", "__lookupGetter__", "__lookupSetter__"]

/-- What reading `table[id]` yields in JavaScript: the configured path
string for an own entry, the inherited Object.prototype member (truthy,
but not a path) for an inherited key, and undefined otherwise. -/
inductive PropValue where
  | pathStr (path : String)
  | protoMember
  | undefinedVal
deriving DecidableEq, Repr

/-- `id in table`: true for own entries and also for inherited
Object.prototype keys. -/
def jsIn (table : List (String × String)) (id : String) : Bool :=
  (table.lookup id).isSome || OBJECT_PROTOTYPE_KEYS.contains id

/-- `table[id]` as a JavaScript property read (walks the prototype
chain). -/
def jsGet (table : List (String × String)) (id : String) : PropValue :=
  match table.lookup id with
  | some p => .pathStr p
  | none => if OBJECT_PROTOTYPE_KEYS.contains id then .protoMember else .undefinedVal

/-- What one render of a preview component mounts, coarsely. -/
inductive RenderedView where
  | fallbackView
  | glbSubtree
deriving DecidableEq, Repr

/-- One render of a preview component: the view it mounts and the values
passed to the loader (`useGLTF(path)` calls issued during this render). -/
structure RenderResult where
  view : RenderedView
  loads : List PropValue
deriving DecidableEq, Repr

/-- The render of `CharacterModel3D` (safe-replacement variant, lines
138-161): `hasGLB` is `character.id in CHARACTER_GLB_MAP` — true also for
inherited prototype keys; if `loadError` is set or `hasGLB` is false, only
the fallback group is returned and the GLB subtree — the only code that
calls `useGLTF` — is never mounted; otherwise the subtree is mounted and
`GLBCharacter` passes `CHARACTER_GLB_MAP[characterId]` to the loader. -/
def characterModel3D (characterId : String) (loadError : Bool) : RenderResult :=
  if loadError || !jsIn CHARACTER_GLB_MAP characterId then ⟨.fallbackView, []⟩
  else ⟨.glbSubtree, [jsGet CHARACTER_GLB_MAP characterId]⟩

/-- The render of `WeaponModel3D` (auto-centering variant, weapon file
lines 81-101): no load-error state; `hasGLB` is
`weaponId in WEAPON_GLB_MAP` — true also for inherited prototype keys —
and when it is false the fallback renders inline and the GLB subtree is
never mounted. -/
def weaponModel3D (weaponId : String) : RenderResult :=
  if jsIn WEAPON_GLB_MAP weaponId then ⟨.glbSubtree, [jsGet WEAPON_GLB_MAP weaponId]⟩
  else ⟨.fallbackView, []⟩

/-- One `useFrame` tick (character file lines 142-144, weapon file lines
265-267): if rotation is enabled, the group's yaw grows by
`delta * rate`. -/
def rotationStep (rate : ℚ) (rotate : Bool) (y delta : ℚ) : ℚ :=
  if rotate then y + delta * rate else y

/-- The yaw after a sequence of frame deltas. -/
def rotationAfter (rate : ℚ) (rotate : Bool) (y0 : ℚ) (deltas : List ℚ) : ℚ :=
  deltas.foldl (rotationStep rate rotate) y0

/-- The character rotation rate: `delta * 0.4` per frame. -/
def characterRate : ℚ := 2/5

/-- The weapon rotation rate: `delta * 0.5` per frame. -/
def weaponRate : ℚ := 1/2

theorem rotationAfter_eq (rate : ℚ) (deltas : List ℚ) :
    ∀ y0, rotationAfter rate true y0 deltas = y0 + rate * deltas.sum := by
  induction deltas with
  | nil => intro y0; simp [rotationAfter]
  | cons d ds ih =>
    intro y0
    simp only [rotationAfter, List.foldl_cons, List.sum_cons] at ih ⊢
    rw [ih]
    simp only [rotationStep, if_true]
    ring

/-- Lifecycle phase of one preview instance (spec section 4.6). -/
inductive Phase where
  | loading
  | ready
  | failed
deriving DecidableEq, Repr

/-- What the instance shows on a committed render. -/
inductive LiveView where
  | fallbackLive
  | displayLive
  | blankLive
deriving DecidableEq, Repr

/-- The fixed outcomes of one mounted preview instance. The component's
renders are deterministic in these: `hasGLB` = the id is in the table;
`loadOk` = the load promise resolves and `useGLTF` returns (otherwise it
throws, the catch calls `onError`, and `setLoadError(true)` is committed);
`cloneOk` = clone+sanitize do not throw (otherwise the `useMemo` catch
returns null); `renderOk` = rendering the primitive subtree does not throw
(otherwise `GLBErrorBoundary.getDerivedStateFromError` sets `hasError`);
`resolveFrame` = the frame at which the async load settles. -/
structure InstanceRun where
  hasGLB : Bool
  loadOk : Bool
  cloneOk : Bool
  renderOk : Bool
  resolveFrame : Nat
deriving DecidableEq, Repr

/-- The committed phase at frame `n` (safe-replacement `CharacterModel3D`,
lines 138-161, with `GLBErrorBoundary` lines 123-136). An unmapped id
renders the fallback-only group from the first render (`FAILED`, skipping
`LOADING`). While the load is outstanding the `Suspense` placeholder shows
(`LOADING`). After it settles: a load failure sets `loadError`, a throw
from the subtree sets `hasError` — both before the phase is ever committed
as ready, and neither flag is ever reset, so `FAILED` persists; otherwise
the instance is `READY`. A clone/sanitize failure sets no flag (the
component returns null), so it does not leave `READY` — it only blanks the
view. -/
def instancePhase (i : InstanceRun) (n : Nat) : Phase :=
  if !i.hasGLB then .failed
  else if n < i.resolveFrame then .loading
  else if !i.loadOk then .failed
  else if i.cloneOk && !i.renderOk then .failed
  else .ready

/-- The committed view at frame `n`: `LOADING` and `FAILED` render the
fallback; `READY` renders the cloned display instance, except that a
caught clone/sanitize failure renders null (a blank). -/
def instanceView (i : InstanceRun) (n : Nat) : LiveView :=
  if instancePhase i n = .ready then
    (if i.cloneOk then .displayLive else .blankLive)
  else .fallbackLive

/-!
Claim theorems.
-/

/-- The claimed range invariant on a sanitized material's scalar fields. -/
def fieldsIn01 (d : StdMaterial) : Prop :=
  0 ≤ d.roughness ∧ d.roughness ≤ 1 ∧ 0 ≤ d.metalness ∧ d.metalness ≤ 1 ∧
    0 ≤ d.opacity ∧ d.opacity ≤ 1

instance (d : StdMaterial) : Decidable (fieldsIn01 d) := by
  unfold fieldsIn01
  infer_instance

/-- A source material whose scalar fields, where present, are in [0,1]. -/
def srcIn01 (m : SrcMaterial) : Prop :=
  (∀ r ∈ m.roughness, 0 ≤ r ∧ r ≤ 1) ∧ (∀ x ∈ m.metalness, 0 ≤ x ∧ x ≤ 1) ∧
    (∀ o ∈ m.opacity, 0 ≤ o ∧ o ≤ 1)

instance (m : SrcMaterial) : Decidable (srcIn01 m) := by
  unfold srcIn01
  infer_instance

/-- The surface used against claim C1: its source descriptor carries the
out-of-range value roughness = 2, which `replaceMat` passes through
unchanged (`(mat && mat.roughness != null) ? mat.roughness : 0.5` — no
clamping anywhere in the pass). -/
def c1BadMaterial : SrcMaterial :=
  { color := .absent, map := none, normalMap := none, roughness := some 2,
    metalness := none, transparent := false, opacity := none }

/-- A loaded asset with a single surface carrying `c1BadMaterial`. -/
def c1BadAsset : SceneTree (Slot SrcMaterial) :=
  .mesh "surface" (0, 0, 0) 0 (.single c1BadMaterial) []

theorem getD_in01 {o : Option ℚ} {dflt : ℚ} (ho : ∀ v ∈ o, 0 ≤ v ∧ v ≤ 1)
    (h0 : 0 ≤ dflt) (h1 : dflt ≤ 1) : 0 ≤ o.getD dflt ∧ o.getD dflt ≤ 1 := by
  cases o with
  | none => simp [h0, h1]
  | some v => simpa using ho v rfl

theorem replaceMat_fieldsIn01 (m : Option SrcMaterial)
    (h : ∀ x, m = some x → srcIn01 x) : fieldsIn01 (replaceMat m) := by
  cases m with
  | none =>
    simp [replaceMat, fieldsIn01]
    norm_num
  | some x =>
    obtain ⟨hr, hm, ho⟩ := h x rfl
    have r01 := getD_in01 hr (show (0:ℚ) ≤ 1/2 by norm_num) (by norm_num)
    have m01 := getD_in01 hm (show (0:ℚ) ≤ 3/10 by norm_num) (by norm_num)
    have o01 := getD_in01 ho (show (0:ℚ) ≤ 1 by norm_num) (by norm_num)
    cases hc : x.color with
    | broken =>
      simp [replaceMat, hc, replaceCatchDefault, fieldsIn01]
      norm_num
    | absent =>
      simp only [replaceMat, hc, fieldsIn01]
      exact ⟨r01.1, r01.2, m01.1, m01.2, o01.1, o01.2⟩
    | proper c =>
      simp only [replaceMat, hc, fieldsIn01]
      exact ⟨r01.1, r01.2, m01.1, m01.2, o01.1, o01.2⟩

theorem mem_allMats {t : SceneTree (Slot μ)} {m : μ} :
    m ∈ allMats t ↔ ∃ s ∈ meshMats t, m ∈ Slot.mats s := by
  simp [allMats, List.mem_flatten]

theorem sanitizeSlot_fieldsIn01 (s : Slot SrcMaterial)
    (h : ∀ m ∈ Slot.mats s, srcIn01 m) :
    ∀ d ∈ Slot.mats (sanitizeSlot s), fieldsIn01 d := by
  cases s with
  | noMat =>
    intro d hd
    simp only [sanitizeSlot, Slot.mats, List.mem_singleton] at hd
    subst hd
    norm_num [noMaterialDefault, fieldsIn01]
  | single m =>
    intro d hd
    simp only [sanitizeSlot, Slot.mats, List.mem_singleton] at hd
    subst hd
    refine replaceMat_fieldsIn01 (some m) ?_
    intro x hx
    cases hx
    exact h m (by simp [Slot.mats])
  | arr ms =>
    intro d hd
    simp only [sanitizeSlot, Slot.mats, List.mem_filterMap, List.mem_map, id_eq] at hd
    obtain ⟨a, ⟨o, ho, rfl⟩, ha⟩ := hd
    obtain rfl : replaceMat o = d := by simpa using ha
    refine replaceMat_fieldsIn01 o ?_
    intro x hx
    subst hx
    apply h
    simp only [Slot.mats, List.mem_filterMap, id_eq]
    exact ⟨some x, ho, rfl⟩

/-- Claim C1, counterexample: the claim asserts that after clone+sanitize
every surface's roughness, metalness and opacity lie in [0,1] no matter
what the source descriptor carried; but `replaceMat` passes a non-null
roughness through without clamping, so the source value 2 survives
sanitization and the sanitized surface violates the claimed range. -/
theorem c1_counterexample :
    ¬ (∀ d ∈ allMats (sanitizeMaterials (cloneScene c1BadAsset)), fieldsIn01 d) := by
  intro hall
  have hd : replaceMat (some c1BadMaterial) ∈
      allMats (sanitizeMaterials (cloneScene c1BadAsset)) := by
    simp [cloneScene, sanitizeMaterials, c1BadAsset, mapMats_mesh, meshMats_mesh,
      allMats, sanitizeSlot, Slot.mats]
  exact absurd (hall _ hd) (by decide)

/-- Claim C1, amended: for every successfully loaded asset, clone followed
by sanitize yields an instance whose every surface material is drawn from
the whitelisted schema, and its roughness, metalness and opacity lie in
[0,1] provided each of those source fields, where present, already lay in
[0,1] — absent fields and descriptors whose rewrite throws get the
in-range defaults (0.5 / 0.3 / 1); out-of-range present values are passed
through unchanged, so the unconditional claim fails (`c1_counterexample`). -/
theorem c1_amended (t : SceneTree (Slot SrcMaterial))
    (h : ∀ m ∈ allMats t, srcIn01 m) :
    ∀ d ∈ allMats (sanitizeMaterials (cloneScene t)), fieldsIn01 d := by
  intro d hd
  rw [cloneScene] at hd
  obtain ⟨s, hs, hds⟩ := mem_allMats.mp hd
  rw [sanitizeMaterials] at hs
  rw [meshMats_mapMats] at hs
  obtain ⟨s0, hs0, rfl⟩ := List.mem_map.mp hs
  refine sanitizeSlot_fieldsIn01 s0 ?_ d hds
  intro m hm
  exact h m (mem_allMats.mpr ⟨s0, hs0, hm⟩)

/-- A well-behaved source material used to witness `c1_amended`. -/
def c1GoodMaterial : SrcMaterial :=
  { color := .proper ⟨1, 0, 0⟩, map := some 3, normalMap := none,
    roughness := some (1/4), metalness := none, transparent := true,
    opacity := some 1 }

/-- A loaded asset with one surface carrying `c1GoodMaterial`. -/
def c1GoodAsset : SceneTree (Slot SrcMaterial) :=
  .group "scene" (0, 0, 0) [.mesh "body" (0, 0, 0) 1 (.single c1GoodMaterial) []]

theorem c1_amended_witness :
    (∀ m ∈ allMats c1GoodAsset, srcIn01 m) ∧
      fieldsIn01 (replaceMat (some c1GoodMaterial)) := by
  have hhyp : ∀ m ∈ allMats c1GoodAsset, srcIn01 m := by
    intro m hm
    simp [allMats, c1GoodAsset, meshMats_group, meshMats_mesh, Slot.mats] at hm
    subst hm
    norm_num [srcIn01, c1GoodMaterial]
    intro x hx
    cases hx
  refine ⟨hhyp, ?_⟩
  have hmem : replaceMat (some c1GoodMaterial) ∈
      allMats (sanitizeMaterials (cloneScene c1GoodAsset)) := by
    simp [cloneScene, sanitizeMaterials, c1GoodAsset, mapMats_group, mapMats_mesh,
      meshMats_group, meshMats_mesh, allMats, sanitizeSlot, Slot.mats]
  exact c1_amended c1GoodAsset hhyp _ hmem

/-- Two arbitrary distinct source materials for the C2 counterexample. -/
def c2MatA : SrcMaterial :=
  { color := .proper ⟨1, 0, 0⟩, map := none, normalMap := none,
    roughness := some (3/4), metalness := some (1/5), transparent := false,
    opacity := some 1 }

/-- Second source material for the C2 counterexample. -/
def c2MatB : SrcMaterial :=
  { color := .absent, map := some 4, normalMap := none, roughness := none,
    metalness := none, transparent := true, opacity := some (1/2) }

/-- An asset whose single surface carries a material array of length 2. -/
def c2ArrayAsset : SceneTree (Slot SrcMaterial) :=
  .mesh "m" (0, 0, 0) 0 (.arr [some c2MatA, some c2MatB]) []

/-- Claim C2, counterexample: the claim quantifies over both cited material
passes, but the auto-centering variants' pass (`GLBWeapon` /
second `GLBCharacter`) has no `Array.isArray` case — a truthy array slot is
treated as a single material object, so a surface carrying an array of two
descriptors comes out carrying a single descriptor, not an array of
length 2. -/
theorem c2_counterexample :
    ¬ ∃ ds : List (Option StdMaterial),
      meshMats (inlineRewrite (cloneScene c2ArrayAsset)) = [Slot.arr ds] ∧
        ds.length = 2 := by
  rintro ⟨ds, h, -⟩
  simp [cloneScene, inlineRewrite, c2ArrayAsset, mapMats_mesh, meshMats_mesh,
    inlineRewriteSlot] at h

/-- Claim C2, amended: in the safe-replacement variants, `sanitizeMaterials`
rewrites every mesh slot with `sanitizeSlot`, and on an array slot of
length N it produces an array of exactly N materials, each element
rewritten independently by `replaceMat` in order (so order and length are
preserved, and malformed or absent elements get the defaults); the
auto-centering variants instead collapse an array slot to a single default
material (`c2_counterexample`). -/
theorem c2_amended :
    (∀ t : SceneTree (Slot SrcMaterial),
      meshMats (sanitizeMaterials t) = (meshMats t).map sanitizeSlot) ∧
    (∀ ms : List (Option SrcMaterial),
      sanitizeSlot (.arr ms) = .arr (ms.map (fun m => some (replaceMat m))) ∧
        (ms.map (fun m => some (replaceMat m))).length = ms.length) := by
  constructor
  · intro t
    rw [sanitizeMaterials]
    exact meshMats_mapMats sanitizeSlot t
  · intro ms
    exact ⟨rfl, List.length_map ms _⟩

/-- A material whose colour field is truthy but not cloneable, so the
safe-replacement rewrite of this surface throws and is caught. -/
def brokenColorMaterial : SrcMaterial :=
  { color := .broken, map := some 7, normalMap := some 8,
    roughness := some (1/3), metalness := some (1/3), transparent := true,
    opacity := some (1/2) }

/-- An asset whose single surface carries `brokenColorMaterial`, fed to
the auto-centering pass. -/
def c5InlineAsset : SceneTree (Slot SrcMaterial) :=
  .mesh "m" (0, 0, 0) 0 (.single brokenColorMaterial) []

/-- Claim C5, counterexample: the claim quantifies over both cited
material passes, but in the auto-centering pass a malformed descriptor
(truthy, uncloneable colour) is not assigned the default neutral
descriptor: the inline rewrite has no try/catch, passes the broken colour
value to the constructor (leaving the default white) and keeps the
source's remaining fields — here the surface keeps its base texture,
which no neutral default carries. -/
theorem c5_counterexample :
    meshMats (inlineRewrite (cloneScene c5InlineAsset)) =
      [Slot.single (inlineReplace brokenColorMaterial)] ∧
    (inlineReplace brokenColorMaterial).map = some 7 ∧
    replaceCatchDefault.map = none ∧ noMaterialDefault.map = none ∧
    inlineReplace brokenColorMaterial ≠ replaceCatchDefault ∧
    inlineReplace brokenColorMaterial ≠ noMaterialDefault := by
  refine ⟨?_, rfl, rfl, rfl, ?_, ?_⟩
  · simp [cloneScene, inlineRewrite, c5InlineAsset, mapMats_mesh, meshMats_mesh,
      inlineRewriteSlot]
  · intro h
    have hm := congrArg StdMaterial.map h
    simp [inlineReplace, brokenColorMaterial, replaceCatchDefault] at hm
  · intro h
    have hm := congrArg StdMaterial.map h
    simp [inlineReplace, brokenColorMaterial, noMaterialDefault] at hm

/-- Claim C5, amended: in both cited passes, every mesh slot is rewritten
independently (`meshMats` of the output is the elementwise image of the
input, so no surface's outcome can abort the rewrite of the others or
escape the pass). In the safe-replacement variants a surface whose
descriptor makes the rewrite throw gets the catch default, and a falsy
descriptor gets the same neutral default. In the auto-centering variants,
however, a malformed broken-colour descriptor yields a
constructor-default-coloured (white) material that keeps the source's
other fields — not the neutral default (`c5_counterexample`) — and a falsy
slot is skipped entirely. -/
theorem c5_amended :
    (∀ t : SceneTree (Slot SrcMaterial),
      meshMats (sanitizeMaterials t) = (meshMats t).map sanitizeSlot) ∧
    (∀ m : SrcMaterial, m.color = SrcColor.broken →
      replaceMat (some m) = replaceCatchDefault) ∧
    replaceMat none = replaceCatchDefault ∧
    (∀ t : SceneTree (Slot SrcMaterial),
      meshMats (inlineRewrite t) = (meshMats t).map inlineRewriteSlot) ∧
    (∀ m : SrcMaterial, m.color = SrcColor.broken →
      (inlineReplace m).color = white ∧ (inlineReplace m).map = m.map ∧
        (inlineReplace m).normalMap = m.normalMap) ∧
    inlineRewriteSlot Slot.noMat = Slot.noMat := by
  refine ⟨?_, ?_, rfl, ?_, ?_, rfl⟩
  · intro t
    rw [sanitizeMaterials]
    exact meshMats_mapMats sanitizeSlot t
  · intro m hm
    simp [replaceMat, hm]
  · intro t
    rw [inlineRewrite]
    exact meshMats_mapMats inlineRewriteSlot t
  · intro m hm
    simp [inlineReplace, hm]

theorem c5_amended_witness :
    brokenColorMaterial.color = SrcColor.broken ∧
      replaceMat (some brokenColorMaterial) = replaceCatchDefault ∧
      (inlineReplace brokenColorMaterial).color = white ∧
      (inlineReplace brokenColorMaterial).map = brokenColorMaterial.map ∧
      (inlineReplace brokenColorMaterial).normalMap =
        brokenColorMaterial.normalMap := by
  have h2 := c5_amended.2.1 brokenColorMaterial rfl
  have h5 := c5_amended.2.2.2.2.1 brokenColorMaterial rfl
  exact ⟨rfl, h2, h5.1, h5.2.1, h5.2.2⟩

/-- An asset whose single surface carries no material at all. -/
def c6NoMatAsset : SceneTree (Slot SrcMaterial) :=
  .mesh "bare" (0, 0, 0) 2 .noMat []

/-- Claim C6, counterexample: the claim quantifies over both cited material
passes, but the auto-centering variants' pass guards with
`if (child.isMesh && child.material)`, so a mesh carrying no material is
skipped and is left with no descriptor instead of being assigned the
default gray one. -/
theorem c6_counterexample :
    ¬ ∃ d : StdMaterial,
      meshMats (inlineRewrite (cloneScene c6NoMatAsset)) = [Slot.single d] := by
  rintro ⟨d, h⟩
  simp [cloneScene, inlineRewrite, c6NoMatAsset, mapMats_mesh, meshMats_mesh,
    inlineRewriteSlot] at h

/-- Claim C6, amended: in the safe-replacement variants, `sanitizeMaterials`
assigns every materialless mesh surface the default neutral gray,
non-transparent material (the `else` branch builds
`color: 0x888888, side: DoubleSide`, with constructor defaults for the
rest); the auto-centering variants leave such a surface without any
descriptor (`c6_counterexample`). -/
theorem c6_amended :
    (∀ t : SceneTree (Slot SrcMaterial),
      meshMats (sanitizeMaterials t) = (meshMats t).map sanitizeSlot) ∧
    sanitizeSlot Slot.noMat = Slot.single noMaterialDefault ∧
    noMaterialDefault.color = gray ∧ noMaterialDefault.transparent = false := by
  refine ⟨?_, rfl, rfl, rfl⟩
  intro t
  rw [sanitizeMaterials]
  exact meshMats_mapMats sanitizeSlot t

/-- A textured source material whose colour makes the rewrite throw. -/
def c9BrokenTextured : SrcMaterial :=
  { color := .broken, map := some 11, normalMap := some 12,
    roughness := some (1/2), metalness := none, transparent := false,
    opacity := some 1 }

/-- A textured source material with a proper colour. -/
def c9SharedTextured : SrcMaterial :=
  { color := .proper ⟨0, 1, 0⟩, map := some 11, normalMap := some 12,
    roughness := none, metalness := some (1/2), transparent := false,
    opacity := none }

/-- Claim C9, counterexample: the claim asserts that the rewritten material
of every surface whose source carries textures holds the identical texture
references; but when the source colour is truthy and not cloneable,
`mat.color.clone()` throws before `map`/`normalMap` are read, and the
catch branch builds the default material with no textures — so this
surface's textures are dropped, not shared. -/
theorem c9_counterexample :
    ¬ ((replaceMat (some c9BrokenTextured)).map = c9BrokenTextured.map ∧
      (replaceMat (some c9BrokenTextured)).normalMap =
        c9BrokenTextured.normalMap) := by
  decide

/-- Claim C9, amended: for every surface whose rewrite does not fall into
the catch branch (the source colour is absent or a proper cloneable
colour), `replaceMat` copies the source's `map` and `normalMap` references
unchanged — textures are shared by reference, not copied, so every clone
sanitized from the same cached asset holds the very texture objects of the
cached materials (and hence shares them with every other clone); a surface
whose rewrite throws instead gets the catch default, which drops both
texture references (`c9_counterexample`). -/
theorem c9_amended (m : SrcMaterial) (h : m.color ≠ SrcColor.broken) :
    (replaceMat (some m)).map = m.map ∧
      (replaceMat (some m)).normalMap = m.normalMap := by
  cases hc : m.color with
  | broken => exact absurd hc h
  | absent => simp [replaceMat, hc]
  | proper c => simp [replaceMat, hc]

theorem c9_amended_witness :
    c9SharedTextured.color ≠ SrcColor.broken ∧
      (replaceMat (some c9SharedTextured)).map = c9SharedTextured.map ∧
        (replaceMat (some c9SharedTextured)).normalMap =
          c9SharedTextured.normalMap :=
  ⟨by decide, c9_amended c9SharedTextured (by decide)⟩

/-- Claim C10: the sanitization pass mutates only the material slots of
mesh nodes. Erasing every mesh material slot from the sanitized instance
gives back exactly the erasure of the input: node kinds, names,
transforms, geometry references, the entire hierarchy (so no node is added
or removed) and every non-mesh node are untouched by the pass. -/
theorem c10_frame :
    ∀ t : SceneTree (Slot SrcMaterial), shape (sanitizeMaterials t) = shape t := by
  intro t
  rw [sanitizeMaterials, shape, shape, mapMats_mapMats]

/-- One display instance in the safe-replacement variant: clone the cached
asset (sharing its material references) and run `sanitizeMaterials`,
allocating the fresh replacement materials from counter `n0`. Returns the
instance and the next counter. -/
def sanitizedInstance (asset : SceneTree (Slot (Nat × SrcMaterial))) (n0 : Nat) :
    SceneTree (Slot (Nat × StdMaterial)) × Nat :=
  sanitizeMaterialsAlloc (cloneScene asset) n0

/-- One display instance in the auto-centering variant: clone the cached
asset and run the inline material rewrite, allocating from `n0`. -/
def inlineInstance (asset : SceneTree (Slot (Nat × SrcMaterial))) (n0 : Nat) :
    SceneTree (Slot (Nat × StdMaterial)) × Nat :=
  inlineRewriteAlloc (cloneScene asset) n0

/-- Claim C3: cloning twice from the same cached asset (and sanitizing, as
each instance does before display) yields two instances that share no
material object with each other or with the cached asset: every material
id of one instance is freshly allocated, so mutating the material object
with that id leaves the other instance and the cached asset unchanged.
Proved for both character variants (sanitizeMaterials pass and the
auto-centering inline pass). -/
theorem c3_no_shared_materials (asset : SceneTree (Slot (Nat × SrcMaterial)))
    (n0 : Nat) (hasset : ∀ i ∈ matIds asset, i < n0) (oid : Nat)
    (f : StdMaterial → StdMaterial) (g : SrcMaterial → SrcMaterial) :
    (oid ∈ matIds (sanitizedInstance asset n0).1 →
      mutateById oid f (sanitizedInstance asset (sanitizedInstance asset n0).2).1 =
        (sanitizedInstance asset (sanitizedInstance asset n0).2).1 ∧
      mutateById oid g asset = asset) ∧
    (oid ∈ matIds (sanitizedInstance asset (sanitizedInstance asset n0).2).1 →
      mutateById oid f (sanitizedInstance asset n0).1 =
        (sanitizedInstance asset n0).1 ∧
      mutateById oid g asset = asset) ∧
    (oid ∈ matIds (inlineInstance asset n0).1 →
      mutateById oid f (inlineInstance asset (inlineInstance asset n0).2).1 =
        (inlineInstance asset (inlineInstance asset n0).2).1 ∧
      mutateById oid g asset = asset) ∧
    (oid ∈ matIds (inlineInstance asset (inlineInstance asset n0).2).1 →
      mutateById oid f (inlineInstance asset n0).1 =
        (inlineInstance asset n0).1 ∧
      mutateById oid g asset = asset) := by
  have hs1 := mapMatsSt_fresh sanitizeSlotAlloc sanitizeSlotAlloc_spec
    (cloneScene asset) n0
  have hs2 := mapMatsSt_fresh sanitizeSlotAlloc sanitizeSlotAlloc_spec
    (cloneScene asset) (sanitizedInstance asset n0).2
  have hi1 := mapMatsSt_fresh inlineRewriteSlotAlloc inlineRewriteSlotAlloc_spec
    (cloneScene asset) n0
  have hi2 := mapMatsSt_fresh inlineRewriteSlotAlloc inlineRewriteSlotAlloc_spec
    (cloneScene asset) (inlineInstance asset n0).2
  simp only [sanitizedInstance, sanitizeMaterialsAlloc, inlineInstance,
    inlineRewriteAlloc] at hs2 hi2 ⊢
  refine ⟨?_, ?_, ?_, ?_⟩
  · intro hoid
    have hb := hs1.2 oid hoid
    constructor
    · apply mutateById_eq_self
      intro hmem
      have := hs2.2 oid hmem
      omega
    · apply mutateById_eq_self
      intro hmem
      have := hasset oid hmem
      omega
  · intro hoid
    have hb := hs2.2 oid hoid
    have h1 := hs1.1
    constructor
    · apply mutateById_eq_self
      intro hmem
      have := hs1.2 oid hmem
      omega
    · apply mutateById_eq_self
      intro hmem
      have := hasset oid hmem
      omega
  · intro hoid
    have hb := hi1.2 oid hoid
    constructor
    · apply mutateById_eq_self
      intro hmem
      have := hi2.2 oid hmem
      omega
    · apply mutateById_eq_self
      intro hmem
      have := hasset oid hmem
      omega
  · intro hoid
    have hb := hi2.2 oid hoid
    have h1 := hi1.1
    constructor
    · apply mutateById_eq_self
      intro hmem
      have := hi1.2 oid hmem
      omega
    · apply mutateById_eq_self
      intro hmem
      have := hasset oid hmem
      omega

/-- The cached-asset material used to witness `c3_no_shared_materials`. -/
def c3Mat : SrcMaterial :=
  { color := .proper ⟨0, 0, 1⟩, map := some 5, normalMap := none,
    roughness := some (1/2), metalness := none, transparent := false,
    opacity := none }

/-- A cached asset holding one material object, with id 0. -/
def c3Asset : SceneTree (Slot (Nat × SrcMaterial)) :=
  .mesh "body" (0, 0, 0) 3 (.single (0, c3Mat)) []

theorem c3_no_shared_materials_witness :
    (∀ i ∈ matIds c3Asset, i < 1) ∧
    1 ∈ matIds (sanitizedInstance c3Asset 1).1 ∧
    (mutateById 1 (fun d => { d with roughness := 0 })
        (sanitizedInstance c3Asset (sanitizedInstance c3Asset 1).2).1 =
      (sanitizedInstance c3Asset (sanitizedInstance c3Asset 1).2).1 ∧
      mutateById 1 (fun m => m) c3Asset = c3Asset) := by
  have hasset : ∀ i ∈ matIds c3Asset, i < 1 := by
    simp [matIds, c3Asset, meshMats_mesh, slotIds, Slot.mats]
  have hmem : 1 ∈ matIds (sanitizedInstance c3Asset 1).1 := by
    simp [sanitizedInstance, sanitizeMaterialsAlloc, cloneScene, c3Asset,
      mapMatsSt, mapListSt, sanitizeSlotAlloc, matIds, meshMats_mesh, slotIds,
      Slot.mats]
  exact ⟨hasset, hmem,
    (c3_no_shared_materials c3Asset 1 hasset 1
      (fun d => { d with roughness := 0 }) (fun m => m)).1 hmem⟩

/-- Claim C4, counterexample: `"toString"` has no entry in either
identifier table, yet the JavaScript `in` operator reports it present (it
is an inherited Object.prototype key), so `hasGLB` is true, the GLB
subtree is mounted, and the loader is invoked with the inherited member
instead of a path — for this absent id the component neither renders the
fallback immediately nor refrains from a load attempt. -/
theorem c4_counterexample :
    resolve CHARACTER_GLB_MAP "toString" = none ∧
    (characterModel3D "toString" false).view = RenderedView.glbSubtree ∧
    (characterModel3D "toString" false).loads = [PropValue.protoMember] ∧
    resolve WEAPON_GLB_MAP "toString" = none ∧
    (weaponModel3D "toString").view = RenderedView.glbSubtree ∧
    (weaponModel3D "toString").loads = [PropValue.protoMember] := by
  decide

/-- Claim C4, amended: for every id that has no entry in the identifier
table and does not collide with an inherited Object.prototype key, the
component renders the fallback on that very render and issues no load
request — the GLB subtree, the only code that calls the loader, is never
mounted; an absent id that is an inherited prototype key (e.g.
`"toString"`) instead mounts the subtree and invokes the loader with the
inherited member (`c4_counterexample`). -/
theorem c4_amended (cid wid : String)
    (hc : resolve CHARACTER_GLB_MAP cid = none)
    (hcp : OBJECT_PROTOTYPE_KEYS.contains cid = false)
    (hw : resolve WEAPON_GLB_MAP wid = none)
    (hwp : OBJECT_PROTOTYPE_KEYS.contains wid = false) :
    (∀ le : Bool, characterModel3D cid le = ⟨.fallbackView, []⟩) ∧
      weaponModel3D wid = ⟨.fallbackView, []⟩ := by
  have hc' : CHARACTER_GLB_MAP.lookup cid = none := hc
  have hw' : WEAPON_GLB_MAP.lookup wid = none := hw
  have hcp' : cid ∉ OBJECT_PROTOTYPE_KEYS := by simpa using hcp
  have hwp' : wid ∉ OBJECT_PROTOTYPE_KEYS := by simpa using hwp
  constructor
  · intro le
    simp [characterModel3D, jsIn, hc', hcp']
  · simp [weaponModel3D, jsIn, hw', hwp']

theorem c4_amended_witness :
    resolve CHARACTER_GLB_MAP "recruit_default" = none ∧
    OBJECT_PROTOTYPE_KEYS.contains "recruit_default" = false ∧
    resolve WEAPON_GLB_MAP "recruit_default" = none ∧
    characterModel3D "recruit_default" false = ⟨.fallbackView, []⟩ ∧
    weaponModel3D "recruit_default" = ⟨.fallbackView, []⟩ := by
  have hc : resolve CHARACTER_GLB_MAP "recruit_default" = none := by decide
  have hcp : OBJECT_PROTOTYPE_KEYS.contains "recruit_default" = false := by decide
  have hw : resolve WEAPON_GLB_MAP "recruit_default" = none := by decide
  have h := c4_amended "recruit_default" "recruit_default" hc hcp hw hcp
  exact ⟨hc, hcp, hw, h.1 false, h.2⟩

/-- Claim C7: with rotation enabled the yaw after frames summing to `t`
seconds equals `rate * t` exactly (hence also modulo 2π), independently of
how `t` is partitioned into frame deltas — shown by comparing two
arbitrary partitions of the same `t` — with the character rate fixed at
0.4 rad/s and the weapon rate at 0.5 rad/s. -/
theorem c7_rotation (deltas deltas2 : List ℚ) (t : ℚ)
    (h : deltas.sum = t) (h2 : deltas2.sum = t) :
    rotationAfter characterRate true 0 deltas = characterRate * t ∧
    rotationAfter characterRate true 0 deltas2 =
      rotationAfter characterRate true 0 deltas ∧
    rotationAfter weaponRate true 0 deltas = weaponRate * t ∧
    rotationAfter weaponRate true 0 deltas2 =
      rotationAfter weaponRate true 0 deltas := by
  rw [rotationAfter_eq characterRate deltas 0, rotationAfter_eq characterRate deltas2 0,
    rotationAfter_eq weaponRate deltas 0, rotationAfter_eq weaponRate deltas2 0,
    h, h2]
  norm_num

theorem c7_rotation_witness :
    ([(1:ℚ)/2, 1/2].sum = 1) ∧ ([(1:ℚ)/4, 1/4, 1/2].sum = 1) ∧
    rotationAfter characterRate true 0 [(1:ℚ)/2, 1/2] = characterRate * 1 ∧
    rotationAfter characterRate true 0 [(1:ℚ)/4, 1/4, 1/2] =
      rotationAfter characterRate true 0 [(1:ℚ)/2, 1/2] ∧
    rotationAfter weaponRate true 0 [(1:ℚ)/2, 1/2] = weaponRate * 1 ∧
    rotationAfter weaponRate true 0 [(1:ℚ)/4, 1/4, 1/2] =
      rotationAfter weaponRate true 0 [(1:ℚ)/2, 1/2] := by
  have h := c7_rotation [(1:ℚ)/2, 1/2] [(1:ℚ)/4, 1/4, 1/2] 1 (by norm_num)
    (by norm_num)
  exact ⟨by norm_num, by norm_num, h.1, h.2.1, h.2.2.1, h.2.2.2⟩

/-- Claim C8: the containment wrapper's phase can only change from
`LOADING`, and only to `READY` or `FAILED`; and `FAILED` is terminal for
the instance — once `FAILED` holds at a frame it holds at every later
frame, and the instance renders the fallback (never the display instance)
from then on. Neither `loadError` nor `hasError` is ever reset in the
source, which is what the constancy after the resolve frame reflects. -/
theorem c8_lifecycle (i : InstanceRun) (n : Nat) :
    (instancePhase i n ≠ instancePhase i (n + 1) →
      instancePhase i n = Phase.loading ∧
        (instancePhase i (n + 1) = Phase.ready ∨
          instancePhase i (n + 1) = Phase.failed)) ∧
    (instancePhase i n = Phase.failed → ∀ m, n ≤ m →
      instancePhase i m = Phase.failed ∧
        instanceView i m = LiveView.fallbackLive) := by
  constructor
  · intro hne
    by_cases hg : i.hasGLB
    · by_cases h1 : n < i.resolveFrame
      · constructor
        · simp [instancePhase, hg, h1]
        · by_cases h2 : n + 1 < i.resolveFrame
          · exact absurd (by simp [instancePhase, hg, h1, h2]) hne
          · by_cases hl : i.loadOk
            · by_cases hcr : i.cloneOk && !i.renderOk
              · right
                simp [instancePhase, hg, h2, hl, hcr]
              · left
                simp [instancePhase, hg, h2, hl, hcr]
            · right
              simp [instancePhase, hg, h2, hl]
      · have h2 : ¬ n + 1 < i.resolveFrame := by omega
        exact absurd (by simp [instancePhase, hg, h1, h2]) hne
    · exact absurd (by simp [instancePhase, hg]) hne
  · intro hf m hm
    have hfm : instancePhase i m = Phase.failed := by
      by_cases hg : i.hasGLB
      · by_cases h1 : n < i.resolveFrame
        · exact absurd hf (by simp [instancePhase, hg, h1])
        · have h2 : ¬ m < i.resolveFrame := by omega
          simp only [instancePhase, hg, h1, h2] at hf ⊢
          simpa using hf
      · simp [instancePhase, hg]
    refine ⟨hfm, ?_⟩
    simp [instanceView, hfm]

theorem c8_lifecycle_witness :
    (instancePhase ⟨true, false, true, true, 4⟩ 3 ≠
        instancePhase ⟨true, false, true, true, 4⟩ 4 ∧
      instancePhase ⟨true, false, true, true, 4⟩ 3 = Phase.loading ∧
        (instancePhase ⟨true, false, true, true, 4⟩ 4 = Phase.ready ∨
          instancePhase ⟨true, false, true, true, 4⟩ 4 = Phase.failed)) ∧
    (instancePhase ⟨true, false, true, true, 4⟩ 4 = Phase.failed ∧
      instancePhase ⟨true, false, true, true, 4⟩ 6 = Phase.failed ∧
        instanceView ⟨true, false, true, true, 4⟩ 6 = LiveView.fallbackLive) := by
  have h1 := (c8_lifecycle ⟨true, false, true, true, 4⟩ 3).1 (by decide)
  have h2 := (c8_lifecycle ⟨true, false, true, true, 4⟩ 4).2 (by decide) 6 (by decide)
  exact ⟨⟨by decide, h1.1, h1.2⟩, by decide, h2.1, h2.2⟩
